import Mathlib

/-!
Verification of the bacli backup/restore orchestration engine against its
natural-language specification. The Go source is shallowly embedded: pure
path/string manipulation becomes Lean functions on String, the filesystem
becomes an explicit map from paths to byte contents, external processes and
fallible I/O steps become explicit result values or fault flags, and fallible
code returns Except values.
-/

namespace Bacli

/-- Byte content of a file, modelled as a list of byte values. -/
abbrev Content := List Nat

/-- Filesystem state: a map from paths to file contents.
A path mapped to none does not exist on disk. -/
def FS := String → Option Content

/-- Create or truncate-and-write the file at path p with content c
(models os.Create followed by writes). -/
def FS.update (fs : FS) (p : String) (c : Content) : FS :=
  fun q => if q = p then some c else fs q

/-- Remove the file at path p (models os.Remove). -/
def FS.erase (fs : FS) (p : String) : FS :=
  fun q => if q = p then none else fs q

/-- Model of Go strings.TrimSuffix: if s ends with the given suffix the
suffix is stripped, otherwise s is returned unchanged. -/
def trimSuffix (s suffixStr : String) : String :=
  if suffixStr.data <:+ s.data then
    String.mk (s.data.take (s.data.length - suffixStr.data.length))
  else s

/-- Outcome steps of the compression pipeline, one per fallible operation in
CompressZstd and DecompressZstd (compress.go). -/
inductive CompressStep where
  | openInput
  | createOutput
  | newWriter
  | newReader
  | copyData
  | removeInput
deriving DecidableEq, Repr

/-- Fault model for CompressZstd: which fallible step of the function fails.
Opening the input fails exactly when the input file is absent, so it carries
no flag. -/
structure CompressFaults where
  createFails : Bool
  newWriterFails : Bool
  copyFails : Bool
  removeFails : Bool
deriving DecidableEq, Repr

/-- Fault-free run of CompressZstd. -/
def noCompressFaults : CompressFaults :=
  { createFails := false, newWriterFails := false, copyFails := false, removeFails := false }

/-- Fault model for DecompressZstd. -/
structure DecompressFaults where
  newReaderFails : Bool
  createFails : Bool
  copyFails : Bool
deriving DecidableEq, Repr

/-- Fault-free run of DecompressZstd. -/
def noDecompressFaults : DecompressFaults :=
  { newReaderFails := false, createFails := false, copyFails := false }

/-- Embedding of CompressZstd (compress.go): the output path is the input
path with ".zst" appended; the input is opened, the output created, a zstd
writer wraps the output, the input is streamed through the encoder, and on
success the original file is removed. The zstd encoder itself is external
(klauspost/compress), so it is a parameter enc. The function returns the Go
return value together with the filesystem left behind; note that once
os.Create has run, a failing later step returns without removing the created
output file. -/
def CompressZstd (enc : Content → Content) (o : CompressFaults) (fs : FS)
    (inputPath : String) : Except CompressStep String × FS :=
  let outputPath := inputPath ++ ".zst"
  match fs inputPath with
  | none => (Except.error CompressStep.openInput, fs)
  | some x =>
    if o.createFails then (Except.error CompressStep.createOutput, fs)
    else
      let fs1 := fs.update outputPath []
      if o.newWriterFails then (Except.error CompressStep.newWriter, fs1)
      else if o.copyFails then (Except.error CompressStep.copyData, fs1)
      else
        let fs2 := fs1.update outputPath (enc x)
        if o.removeFails then (Except.error CompressStep.removeInput, fs2)
        else (Except.ok outputPath, fs2.erase inputPath)

/-- Embedding of DecompressZstd (compress.go): the output path is the input
path with a trailing ".zst" stripped by strings.TrimSuffix (with no prior
validation that the suffix is present); the input is opened, a zstd reader
wraps it, the output file is created (truncating whatever is at that path),
and the decoded stream is copied into it. The copy reads through the handle
opened on inputPath, so it sees the state of that path after the os.Create
step: when outputPath aliases inputPath the content read is the truncated
(empty) file. The compressed source is never deleted. -/
def DecompressZstd (dec : Content → Content) (o : DecompressFaults) (fs : FS)
    (inputPath : String) : Except CompressStep String × FS :=
  let outputPath := trimSuffix inputPath ".zst"
  match fs inputPath with
  | none => (Except.error CompressStep.openInput, fs)
  | some _ =>
    if o.newReaderFails then (Except.error CompressStep.newReader, fs)
    else if o.createFails then (Except.error CompressStep.createOutput, fs)
    else
      let fs1 := fs.update outputPath []
      if o.copyFails then (Except.error CompressStep.copyData, fs1)
      else (Except.ok outputPath, fs1.update outputPath (dec ((fs1 inputPath).getD [])))

/-- MongoDB dump/restore method constants (database/mongodb.go). -/
def MethodDir : String := "directory"

/-- MongoDB directory-with-gzip method constant (database/mongodb.go). -/
def MethodDirGzip : String := "directory-gzip"

/-- MongoDB archive method constant (database/mongodb.go). -/
def MethodArchive : String := "archive"

/-- MongoDB archive-with-gzip method constant (database/mongodb.go). -/
def MethodArchiveGzip : String := "archive-gzip"

/-- Embedding of the Postgres adapter configuration (database/postgres.go),
restricted to the fields read when building tool invocations; the timeout and
logger are runtime capabilities outside this model. -/
structure Postgres where
  username : String
  password : String
  database : String
  host : String
  port : String
  method : String
  outputDir : String
  timeStampFormat : String
deriving DecidableEq, Repr

/-- Argument list handed to pg_dump by Postgres.Backup (database/postgres.go):
host, port, user, database, format and output file. The password is not among
them. -/
def Postgres.backupArgs (p : Postgres) (backupPath : String) : List String :=
  ["-h", p.host, "-p", p.port, "-U", p.username,
   "-d", p.database, "-F", p.method, "-f", backupPath]

/-- Environment entries Postgres.Backup appends beyond the inherited process
environment: exactly PGPASSWORD (database/postgres.go). -/
def Postgres.backupEnvExtra (p : Postgres) : List String :=
  ["PGPASSWORD=" ++ p.password]

/-- Tool and argument list selected by Postgres.Restore once the backup file
exists (database/postgres.go): the method switch has a case for plain (psql)
and routes every other method string to pg_restore with -F method. -/
def Postgres.restoreInvocation (p : Postgres) (backupFile : String) : String × List String :=
  if p.method = "plain" then
    ("psql", ["-h", p.host, "-p", p.port, "-U", p.username, "-d", p.database, "-f", backupFile])
  else
    ("pg_restore", ["-h", p.host, "-p", p.port, "-U", p.username, "-d", p.database,
      "-c", "-F", p.method, backupFile])

/-- Embedding of the MongoDB adapter configuration (database/mongodb.go),
restricted to the fields read when building tool invocations. -/
structure MongoDB where
  username : String
  password : String
  database : String
  host : String
  port : String
  method : String
  outputDir : String
  timestampFormat : String
deriving DecidableEq, Repr

/-- Base argument list MongoDB.Backup hands to mongodump before the
method-specific flags (database/mongodb.go); it carries the password in argv
as --password=... and the adapter never sets cmd.Env. -/
def MongoDB.backupBaseArgs (m : MongoDB) : List String :=
  ["--host=" ++ m.host, "--port=" ++ m.port, "--username=" ++ m.username,
   "--password=" ++ m.password, "--authenticationDatabase=admin",
   "--db=" ++ m.database, "--quiet"]

/-- Full mongodump argument list built by MongoDB.Backup: the method switch
appends --out or --archive (plus --gzip) to the base arguments, and has no
default case, so an unmatched method leaves args nil (database/mongodb.go). -/
def MongoDB.backupArgs (m : MongoDB) (backupPath : String) : List String :=
  if m.method = MethodDir then m.backupBaseArgs ++ ["--out=" ++ backupPath]
  else if m.method = MethodDirGzip then m.backupBaseArgs ++ ["--out=" ++ backupPath, "--gzip"]
  else if m.method = MethodArchive then m.backupBaseArgs ++ ["--archive=" ++ backupPath]
  else if m.method = MethodArchiveGzip then
    m.backupBaseArgs ++ ["--archive=" ++ backupPath, "--gzip"]
  else []

/-- Environment entries MongoDB.Backup adds beyond the inherited process
environment: none, cmd.Env is never assigned (database/mongodb.go). -/
def MongoDB.backupEnvExtra (_ : MongoDB) : List String := []

/-- Base argument list MongoDB.Restore hands to mongorestore before the
method-specific flags (database/mongodb.go). -/
def MongoDB.restoreBaseArgs (m : MongoDB) : List String :=
  ["--host=" ++ m.host, "--port=" ++ m.port, "--username=" ++ m.username,
   "--password=" ++ m.password, "--authenticationDatabase=admin",
   "--nsInclude=" ++ m.database ++ ".*", "--drop", "--quiet"]

/-- Full mongorestore argument list built by MongoDB.Restore: the method
switch appends --dir or --archive (plus --gzip) to the base arguments and has
no default case, so an unmatched method leaves args nil and mongorestore is
invoked with an empty argument list (database/mongodb.go). -/
def MongoDB.restoreArgs (m : MongoDB) (sourceDir : String) : List String :=
  if m.method = MethodDir then m.restoreBaseArgs ++ ["--dir=" ++ sourceDir]
  else if m.method = MethodDirGzip then m.restoreBaseArgs ++ ["--dir=" ++ sourceDir, "--gzip"]
  else if m.method = MethodArchive then m.restoreBaseArgs ++ ["--archive=" ++ sourceDir]
  else if m.method = MethodArchiveGzip then
    m.restoreBaseArgs ++ ["--archive=" ++ sourceDir, "--gzip"]
  else []

/-- Outcome of an adapter Restore call: the initial os.Stat check fails, the
restore fails with the ErrUnsupportedRestoreMethod sentinel declared in
database/database.go, or an external tool is invoked with an argument list. -/
inductive RestoreOutcome where
  | fileNotFound
  | unsupportedMethod
  | invoke (tool : String) (args : List String)
deriving DecidableEq, Repr

/-- Embedding of Postgres.Restore up to spawning the tool
(database/postgres.go): checks that the backup file exists, then invokes the
tool selected by the method switch. No branch produces
ErrUnsupportedRestoreMethod. -/
def Postgres.restoreOutcome (p : Postgres) (fs : FS) (backupFile : String) : RestoreOutcome :=
  match fs backupFile with
  | none => RestoreOutcome.fileNotFound
  | some _ =>
      RestoreOutcome.invoke (p.restoreInvocation backupFile).1 (p.restoreInvocation backupFile).2

/-- Embedding of MongoDB.Restore up to spawning the tool
(database/mongodb.go): checks that the backup source exists, then invokes
mongorestore with the args built by the method switch. No branch produces
ErrUnsupportedRestoreMethod. -/
def MongoDB.restoreOutcome (m : MongoDB) (fs : FS) (sourceDir : String) : RestoreOutcome :=
  match fs sourceDir with
  | none => RestoreOutcome.fileNotFound
  | some _ => RestoreOutcome.invoke "mongorestore" (m.restoreArgs sourceDir)

/-- Shape of a Vault logical read/write response field as the client code
inspects it (vault client, loginAppRole): the secret or the field can be nil,
the field can fail the string type assertion, or it is a string value
(possibly empty). -/
inductive SecretField where
  | missing
  | notString
  | strVal (s : String)
deriving DecidableEq, Repr

/-- Abstract broker responses for the three AppRole login steps: reading the
role-id, writing the secret-id generation endpoint, and writing the login
endpoint. A login response is the optional client token (none models a nil
Auth). The network transport is external, so each response is a parameter. -/
structure ApproleBroker where
  roleIdRead : Except String SecretField
  secretIdWrite : Except String SecretField
  loginWrite : Except String (Option String)
deriving Repr

/-- Embedding of loginAppRole (vault client): fetch role-id, generate a
secret-id, then log in with both; every failed check aborts with the error
message the code builds, and only a non-empty client token yields success. -/
def loginAppRole (b : ApproleBroker) : Except String String :=
  match b.roleIdRead with
  | Except.error e => Except.error ("fetch role_id: " ++ e)
  | Except.ok SecretField.missing => Except.error "no role_id returned"
  | Except.ok SecretField.notString => Except.error "invalid role_id format"
  | Except.ok (SecretField.strVal roleId) =>
    if roleId = "" then Except.error "invalid role_id format"
    else
      match b.secretIdWrite with
      | Except.error e => Except.error ("generate secret_id: " ++ e)
      | Except.ok SecretField.missing => Except.error "no secret_id returned"
      | Except.ok SecretField.notString => Except.error "invalid secret_id format"
      | Except.ok (SecretField.strVal secretId) =>
        if secretId = "" then Except.error "invalid secret_id format"
        else
          match b.loginWrite with
          | Except.error e => Except.error ("approle login request: " ++ e)
          | Except.ok none => Except.error "no token in login response"
          | Except.ok (some t) =>
            if t = "" then Except.error "no token in login response"
            else Except.ok t

/-- Session state of a constructed Vault client: the token set on the API
client. -/
structure VaultClientState where
  token : String
deriving DecidableEq, Repr

/-- Embedding of vault NewClient: the effective config token (environment
defaults overridden by options) is set first; when an AppRole name is
configured the login runs and its failure makes construction return the
error, so no client value reaches the caller. -/
def NewClient (cfgToken approleName : String) (b : ApproleBroker) :
    Except String VaultClientState :=
  if approleName = "" then Except.ok { token := cfgToken }
  else
    match loginAppRole b with
    | Except.error e => Except.error ("AppRole login failed: " ++ e)
    | Except.ok t => Except.ok { token := t }

/-- A role-id or secret-id step fails when the read/write errs, the field is
absent, fails the string assertion, or is empty (the disjuncts checked by
loginAppRole). -/
def fieldFails : Except String SecretField → Prop
  | Except.error _ => True
  | Except.ok SecretField.missing => True
  | Except.ok SecretField.notString => True
  | Except.ok (SecretField.strVal s) => s = ""

/-- The login step fails when the write errs, Auth is nil, or the client
token is empty. -/
def loginStepFails : Except String (Option String) → Prop
  | Except.error _ => True
  | Except.ok none => True
  | Except.ok (some t) => t = ""

/-- Metadata record for one backup run of one database
(operations/metadata.go); times are abstract tick counts and the JSON
serialization is outside this model. -/
structure Metadata where
  engine : String
  database : String
  filePath : String
  status : String
  errorMsg : String
  startedAt : Nat
  completedAt : Nat
  duration : Nat
  sizeBytes : Int
deriving DecidableEq, Repr

/-- Model of filepath.Dir restricted to how the orchestrator uses it: the
directory part of a backup artifact path, i.e. everything before the final
slash (Go returns "." when there is no slash). -/
def dirOf (p : String) : String :=
  match p.data.reverse.dropWhile (fun c => ¬ (c = '/')) with
  | [] => "."
  | _ :: rest => String.mk rest.reverse

/-- Embedding of OperationManager.BackupDatabase (operations package): builds
a Metadata record around the db.Backup call; on failure the record gets
status failed, the error text and the literal file path "None", and the
function returns the wrapped error before reaching the record.Write call at
the end, so nothing is persisted; on success the record gets status success,
the artifact path and the stat size, the artifact is optionally compressed,
and the record is written to the artifact directory. The result is the Go
return value, the record the function built, and the list of
(directory, record) writes performed through the metadata store. -/
def BackupDatabase (compress : Bool) (engine dbName : String) (start finish : Nat)
    (backupResult : Except String String) (statSize : String → Option Int)
    (compressResult : String → Except String String) :
    Except String Unit × Metadata × List (String × Metadata) :=
  let record0 : Metadata :=
    { engine := engine, database := dbName, filePath := "", status := "", errorMsg := "",
      startedAt := start, completedAt := finish, duration := finish - start, sizeBytes := 0 }
  match backupResult with
  | Except.error e =>
      (Except.error ("backup failed for " ++ dbName ++ ": " ++ e),
       { record0 with status := "failed", errorMsg := e, filePath := "None" }, [])
  | Except.ok backupPath =>
      let record1 :=
        { record0 with
            status := "success",
            filePath := backupPath,
            sizeBytes := (statSize backupPath).getD 0 }
      if compress then
        match compressResult backupPath with
        | Except.error e => (Except.error ("compress backup file: " ++ e), record1, [])
        | Except.ok comPath =>
            let record2 := { record1 with filePath := comPath }
            (Except.ok (), record2, [(dirOf backupPath, record2)])
      else (Except.ok (), record1, [(dirOf backupPath, record1)])

/-- Error strings collected into the errs channel by the BackupAll fan-out
(operations.go): one wrapped message per failed instance, as logged and sent
by each goroutine. -/
def collectBackupErrors (outcomes : List (String × Except String Unit)) : List String :=
  outcomes.filterMap fun o =>
    match o.2 with
    | Except.error e => some ("backup failed for " ++ o.1 ++ ": " ++ e)
    | Except.ok _ => none

/-- First failing metadata write in the post-join write loop of BackupAll
(operations.go), which returns on the first error it meets. -/
def firstMetaWriteError : List (String × Except String Unit) → Option (String × String)
  | [] => none
  | (p, Except.error e) :: _ => some (p, e)
  | _ :: rest => firstMetaWriteError rest

/-- Embedding of BackupAll (operations.go): init stands for the combined
NewOperationManager / InitializeDatabases phase whose error is returned
directly; each per-instance outcome is logged and its wrapped error pushed
into the errs channel, but after the goroutines join the channel is closed
and never drained (the error check is commented out), so only a metadata
write failure is returned and otherwise the function returns nil. The second
component is the list of error messages that were collected and logged. -/
def BackupAll (init : Except String (List (String × Except String Unit)))
    (metaWrites : List (String × Except String Unit)) : Except String Unit × List String :=
  match init with
  | Except.error e => (Except.error e, [])
  | Except.ok outcomes =>
      (match firstMetaWriteError metaWrites with
       | some pe => Except.error ("failed to write metadata to " ++ pe.1 ++ ": " ++ pe.2)
       | none => Except.ok (),
       collectBackupErrors outcomes)

/-- Embedding of the backup CLI command (cmd/backup_cmd.go): the process
calls os.Exit 1 exactly when BackupAll returns an error, and otherwise exits
0. -/
def backupCmdExitCode (init : Except String (List (String × Except String Unit)))
    (metaWrites : List (String × Except String Unit)) : Nat :=
  match (BackupAll init metaWrites).1 with
  | Except.error _ => 1
  | Except.ok _ => 0

/-- Per-run record of the older metadata layout (backup/db.go DBRecord), the
one the legacy sequential RestoreAll in operations.go consumes. -/
structure DBRecord where
  name : String
  success : Bool
  path : String
  errorText : String
  startedAt : Nat
  duration : Nat
  sizeBytes : Int
deriving DecidableEq, Repr

/-- What RestoreAll does for one instance: skip it with log.Warn, fail inside
RestoreDatabase before any restore tool is spawned (decompression or the
adapter's file-existence check fails, logged via log.Error), or spawn the
restore tool with the given outcome. -/
inductive InstanceAction where
  | warnSkip
  | failedBeforeTool
  | toolRun (ok : Bool)
deriving DecidableEq, Repr

/-- Embedding of the per-instance behaviour of the concurrent RestoreAll and
OperationManager.RestoreDatabase (operations/restore.go): after loading the
metadata record the restore is attempted unconditionally - the record's
status field is never consulted. With compression configured, RestoreDatabase
first decompresses record.FilePath (failing before db.Restore when that file
is absent); without it, db.Restore stats record.FilePath itself and fails
before spawning the tool when it is absent. toolOk abstracts the external
restore tool's exit status. -/
def instanceActionOM (compress : Bool) (fs : FS) (toolOk : Bool)
    (rec : Metadata) : InstanceAction :=
  if compress then
    match fs rec.filePath with
    | none => InstanceAction.failedBeforeTool
    | some _ => InstanceAction.toolRun toolOk
  else
    match fs rec.filePath with
    | none => InstanceAction.failedBeforeTool
    | some _ => InstanceAction.toolRun toolOk

/-- Embedding of the per-instance behaviour of the legacy sequential
RestoreAll (operations.go): a record with Success false is skipped with
log.Warn and no restore is attempted; otherwise db.Restore runs, failing
before the tool when the recorded path does not exist. -/
def instanceActionLegacy (fs : FS) (toolOk : Bool) (rec : DBRecord) : InstanceAction :=
  if rec.success = false then InstanceAction.warnSkip
  else
    match fs rec.path with
    | none => InstanceAction.failedBeforeTool
    | some _ => InstanceAction.toolRun toolOk

/-- Dynamic credential leased from Vault (vault client
DynamicCredentials). -/
structure DynamicCredentials where
  username : String
  password : String
  ttlSeconds : Nat
deriving DecidableEq, Repr

/-- Configured engine instance as the initializers read it
(config instances). -/
structure InstanceSpec where
  roleName : String
  database : String
  host : String
  port : String
  method : String
deriving DecidableEq, Repr

/-- Embedding of InitPostgresInstances / InitMongoDBInstances
(operations/restore.go): the loop leases a dynamic credential per configured
instance and constructs the adapter; the first lease failure makes the whole
function return nil and the wrapped error, discarding every adapter
constructed so far. Each instance is paired with its lease result. -/
def InitEngineInstances
    (leases : List (InstanceSpec × Except String DynamicCredentials)) :
    Except String (List (InstanceSpec × DynamicCredentials)) :=
  match leases with
  | [] => Except.ok []
  | (_, Except.error e) :: _ => Except.error ("vault read :" ++ e)
  | (inst, Except.ok c) :: rest =>
      match InitEngineInstances rest with
      | Except.error e => Except.error e
      | Except.ok dbs => Except.ok ((inst, c) :: dbs)

/-- Embedding of InitializeDatabases (operations/restore.go): runs every
engine initializer and aborts on the first initializer error, so a single
lease failure anywhere yields an error and no Database list at all. -/
def InitializeDatabases
    (pgLeases mongoLeases : List (InstanceSpec × Except String DynamicCredentials)) :
    Except String (List (InstanceSpec × DynamicCredentials)) :=
  match InitEngineInstances pgLeases with
  | Except.error e => Except.error ("initialize postgres instance: " ++ e)
  | Except.ok pgDbs =>
      match InitEngineInstances mongoLeases with
      | Except.error e => Except.error ("initialize mongodb instance: " ++ e)
      | Except.ok mgDbs => Except.ok (pgDbs ++ mgDbs)

/-- One-file filesystem holding a.dump, used by concrete instantiations. -/
def sampleFS : FS := fun q => if q = "a.dump" then some [7, 7] else none

/-- Filesystem in which every path exists, used by concrete instantiations. -/
def allFS : FS := fun _ => some []

/-- Filesystem with no files at all, used by concrete instantiations. -/
def emptyFS : FS := fun _ => none

/-- Concrete Postgres instance whose method matches no restore strategy. -/
def pgBogus : Postgres :=
  { username := "u", password := "s3cret", database := "db1", host := "h", port := "5432",
    method := "bogus", outputDir := "backups", timeStampFormat := "ts" }

/-- Concrete MongoDB instance whose method matches no strategy case. -/
def mgBogus : MongoDB :=
  { username := "u", password := "s3cret", database := "testdb1", host := "h", port := "27017",
    method := "bogus", outputDir := "backups", timestampFormat := "ts" }

/-- Concrete MongoDB instance configured with the archive method. -/
def mgArchive : MongoDB := { mgBogus with method := MethodArchive }

/-- Broker whose role-id read fails with a transport error. -/
def brokerDown : ApproleBroker :=
  { roleIdRead := Except.error "connection refused",
    secretIdWrite := Except.ok (SecretField.strVal "sid"),
    loginWrite := Except.ok (some "tok") }

/-- Concrete metadata record of a failed backup, as BackupDatabase builds
it. -/
def failedRec : Metadata :=
  { engine := "postgres", database := "db1", filePath := "None", status := "failed",
    errorMsg := "pg_dump failed: exit status 1", startedAt := 0, completedAt := 5,
    duration := 5, sizeBytes := 0 }

theorem append_zst_ne (p : String) : ¬ (p ++ ".zst" = p) := by
  intro h
  have hlen : (p ++ ".zst").data.length = p.data.length := by rw [h]
  rw [String.data_append, List.length_append] at hlen
  simp at hlen

theorem ne_append_zst (p : String) : ¬ (p = p ++ ".zst") := by
  intro h
  exact append_zst_ne p h.symm

theorem trimSuffix_append_zst (p : String) : trimSuffix (p ++ ".zst") ".zst" = p := by
  unfold trimSuffix
  rw [if_pos]
  · rw [String.data_append]
    have hz : (String.mk ['.', 'z', 's', 't']).data.length = 4 := rfl
    rw [show (".zst" : String) = String.mk ['.', 'z', 's', 't'] from rfl]
    rw [List.length_append, hz, Nat.add_sub_cancel]
    rw [List.take_left]
  · rw [String.data_append]
    exact List.suffix_append _ _

theorem trimSuffix_eq_self (s : String) (h : ¬ ((".zst" : String).data <:+ s.data)) :
    trimSuffix s ".zst" = s := by
  unfold trimSuffix
  rw [if_neg h]

/-- Claim C1, counterexample: one instance whose backup fails is collected
and logged by BackupAll, yet BackupAll returns nil and the backup CLI exits
0, refuting the claim that the exit code is non-zero whenever an
instance-level operation failed. -/
theorem backupCmd_exits_zero_despite_instance_failure :
    collectBackupErrors [("db1", Except.error "pg_dump failed: exit status 1")] =
      ["backup failed for db1: pg_dump failed: exit status 1"] ∧
    backupCmdExitCode
      (Except.ok [("db1", Except.error "pg_dump failed: exit status 1")]) [] = 0 :=
  ⟨rfl, rfl⟩

/-- Claim C1, amended: BackupAll collects and logs per-instance errors but
never surfaces them - its returned error is independent of the per-instance
outcomes, the collected channel contents are exactly the wrapped failure
messages, and with initialization and metadata writes succeeding the CLI
exits 0 even when instances failed; a non-zero exit arises only from
configuration/initialization or metadata-write errors. -/
theorem backupAll_never_surfaces_instance_errors
    (outcomes : List (String × Except String Unit))
    (metaWrites : List (String × Except String Unit)) :
    (BackupAll (Except.ok outcomes) metaWrites).1 = (BackupAll (Except.ok []) metaWrites).1 ∧
    (BackupAll (Except.ok outcomes) metaWrites).2 = collectBackupErrors outcomes ∧
    backupCmdExitCode (Except.ok outcomes) [] = 0 := by
  refine ⟨?_, rfl, rfl⟩
  cases h : firstMetaWriteError metaWrites <;> simp [BackupAll, h]

/-- Claim C2, counterexample: the MongoDB adapter puts the password on the
mongodump command line (--password=...) and adds nothing to the process
environment, refuting the claim that for every engine adapter credentials
reach the dump tool only through environment variables and never argv. -/
theorem mongo_backup_argv_contains_password :
    ("--password=" ++ mgArchive.password) ∈ MongoDB.backupArgs mgArchive "bk" ∧
    MongoDB.backupEnvExtra mgArchive = [] := by
  constructor
  · simp [MongoDB.backupArgs, MongoDB.backupBaseArgs, mgArchive, mgBogus,
      MethodDir, MethodDirGzip, MethodArchive, MethodArchiveGzip]
  · rfl

/-- Claim C2, amended: only the Postgres adapter keeps the password out of
argv - its pg_dump argument list is independent of the password field and the
password travels in the PGPASSWORD environment entry - while the MongoDB
adapter appends no environment entries and passes --password=(password) in
the argv of mongodump for every matched dump method. -/
theorem backup_password_env_vs_argv
    (p : Postgres) (pw bp : String) (m : MongoDB) (mbp : String)
    (hm : m.method = MethodDir ∨ m.method = MethodDirGzip ∨
          m.method = MethodArchive ∨ m.method = MethodArchiveGzip) :
    Postgres.backupArgs { p with password := pw } bp = Postgres.backupArgs p bp ∧
    Postgres.backupEnvExtra p = ["PGPASSWORD=" ++ p.password] ∧
    MongoDB.backupEnvExtra m = [] ∧
    ("--password=" ++ m.password) ∈ MongoDB.backupArgs m mbp := by
  refine ⟨rfl, rfl, rfl, ?_⟩
  rcases hm with h | h | h | h <;>
    simp [MongoDB.backupArgs, MongoDB.backupBaseArgs, h,
      MethodDir, MethodDirGzip, MethodArchive, MethodArchiveGzip]

/-- Claim C2, witness for the amended theorem at a concrete Postgres and
MongoDB instance. -/
theorem backup_password_env_vs_argv_witness :
    Postgres.backupArgs { pgBogus with password := "other" } "bp" =
      Postgres.backupArgs pgBogus "bp" ∧
    Postgres.backupEnvExtra pgBogus = ["PGPASSWORD=" ++ pgBogus.password] ∧
    MongoDB.backupEnvExtra mgArchive = [] ∧
    ("--password=" ++ mgArchive.password) ∈ MongoDB.backupArgs mgArchive "mbp" :=
  backup_password_env_vs_argv pgBogus "other" "bp" mgArchive "mbp"
    (Or.inr (Or.inr (Or.inl rfl)))

/-- Claim C3, counterexample: when Backup fails, BackupDatabase builds the
failed record with file path literally "None" (not "none") but returns the
wrapped error before the record.Write call, so the write list is empty and no
status=failed record ever reaches the metadata store, refuting the claim
that the failed record is written keyed by engine and database. -/
theorem failed_backup_record_never_written :
    (BackupDatabase false "postgres" "db1" 0 5
        (Except.error "pg_dump failed: exit status 1")
        (fun _ => none) (fun path => Except.ok (path ++ ".zst"))).2.2 = [] ∧
    (BackupDatabase false "postgres" "db1" 0 5
        (Except.error "pg_dump failed: exit status 1")
        (fun _ => none) (fun path => Except.ok (path ++ ".zst"))).2.1 = failedRec ∧
    failedRec.filePath = "None" :=
  ⟨rfl, rfl, rfl⟩

/-- Claim C3, amended: on a failed Backup the orchestrator builds a Metadata
record with status failed, error set to the failure message and file path
"None", but returns before the metadata store write, so nothing is persisted
for that instance; only on success is the record - with status success, the
real artifact path and the stat size - written, keyed by the artifact's
directory. -/
theorem backupDatabase_write_behaviour
    (compress : Bool) (engine dbName : String) (start finish : Nat) (e : String)
    (statSize : String → Option Int) (cr : String → Except String String) (bp : String) :
    (BackupDatabase compress engine dbName start finish (Except.error e) statSize cr).2.2
      = [] ∧
    (BackupDatabase compress engine dbName start finish
        (Except.error e) statSize cr).2.1.status = "failed" ∧
    (BackupDatabase compress engine dbName start finish
        (Except.error e) statSize cr).2.1.filePath = "None" ∧
    (BackupDatabase compress engine dbName start finish
        (Except.error e) statSize cr).2.1.errorMsg = e ∧
    (BackupDatabase compress engine dbName start finish (Except.error e) statSize cr).1 =
      Except.error ("backup failed for " ++ dbName ++ ": " ++ e) ∧
    (BackupDatabase false engine dbName start finish (Except.ok bp) statSize cr).2.2 =
      [(dirOf bp,
        (BackupDatabase false engine dbName start finish (Except.ok bp) statSize cr).2.1)] ∧
    (BackupDatabase false engine dbName start finish
        (Except.ok bp) statSize cr).2.1.status = "success" ∧
    (BackupDatabase false engine dbName start finish
        (Except.ok bp) statSize cr).2.1.filePath = bp :=
  ⟨rfl, rfl, rfl, rfl, rfl, rfl, rfl, rfl⟩

/-- Claim C4, counterexample: for an instance whose stored record has status
failed (file path "None"), the concurrent RestoreAll of restore.go does not
skip with a warning - RestoreDatabase is attempted and fails at the
file-existence / decompression check, logged as an error - refuting the claim
that such instances are skipped with a logged warning. -/
theorem failed_record_restore_still_attempted :
    instanceActionOM false emptyFS true failedRec = InstanceAction.failedBeforeTool ∧
    ¬ (instanceActionOM false emptyFS true failedRec = InstanceAction.warnSkip) := by
  constructor
  · rfl
  · intro h
    simp [instanceActionOM, emptyFS] at h

/-- Claim C4, amended: the concurrent RestoreAll of restore.go never consults
the loaded record's status - the per-instance action is identical for any two
status values and is never a warn-skip - while the legacy sequential
RestoreAll of operations.go does skip any record whose Success flag is false
with a logged warning and no restore attempt. -/
theorem restoreAll_ignores_record_status
    (compress : Bool) (fs : FS) (toolOk : Bool) (rec : Metadata) (s1 s2 : String)
    (drec : DBRecord) :
    instanceActionOM compress fs toolOk { rec with status := s1 } =
      instanceActionOM compress fs toolOk { rec with status := s2 } ∧
    ¬ (instanceActionOM compress fs toolOk rec = InstanceAction.warnSkip) ∧
    instanceActionLegacy fs toolOk { drec with success := false } =
      InstanceAction.warnSkip := by
  refine ⟨?_, ?_, ?_⟩
  · cases compress <;> simp [instanceActionOM]
  · cases compress <;> cases h : fs rec.filePath <;> simp [instanceActionOM, h]
  · simp [instanceActionLegacy]

/-- Claim C5, counterexample: a CompressZstd run whose io.Copy step fails
returns an error, yet the output file created by os.Create is still on disk
afterwards, refuting the claim that no compressed output file is left behind
on any failure. -/
theorem compress_copy_failure_leaves_output_file :
    (CompressZstd (fun c => c)
        { createFails := false, newWriterFails := false, copyFails := true,
          removeFails := false } sampleFS "a.dump").1 =
      Except.error CompressStep.copyData ∧
    (CompressZstd (fun c => c)
        { createFails := false, newWriterFails := false, copyFails := true,
          removeFails := false } sampleFS "a.dump").2 "a.dump.zst" = some [] := by
  constructor
  · rfl
  · simp [CompressZstd, sampleFS, FS.update]

/-- Claim C5, amended: on any CompressZstd failure the original input file is
left intact, but whenever the failing step comes after the os.Create of the
output (zstd writer creation, the copy, or the removal of the input) the
created output file is left behind on disk; only an open or create failure
leaves no output. -/
theorem compressZstd_failure_effects
    (enc : Content → Content) (o : CompressFaults) (fs : FS) (p : String)
    (e : CompressStep)
    (h : (CompressZstd enc o fs p).1 = Except.error e) :
    (CompressZstd enc o fs p).2 p = fs p ∧
    ((e = CompressStep.newWriter ∨ e = CompressStep.copyData ∨
        e = CompressStep.removeInput) →
      ((CompressZstd enc o fs p).2 (p ++ ".zst")).isSome = true) := by
  rcases o with ⟨cf, wf, pf, rf⟩
  rcases hfs : fs p with _ | x <;>
    cases cf <;> cases wf <;> cases pf <;> cases rf <;>
      simp_all [CompressZstd, FS.update, FS.erase, append_zst_ne p, ne_append_zst p] <;>
      (subst h; simp)

/-- Claim C5, witness for the amended theorem at a concrete copy failure. -/
theorem compressZstd_failure_effects_witness :
    (CompressZstd (fun c => c)
        { createFails := false, newWriterFails := false, copyFails := true,
          removeFails := false } sampleFS "a.dump").1 =
      Except.error CompressStep.copyData ∧
    (CompressZstd (fun c => c)
        { createFails := false, newWriterFails := false, copyFails := true,
          removeFails := false } sampleFS "a.dump").2 "a.dump" = sampleFS "a.dump" ∧
    ((CompressStep.copyData = CompressStep.newWriter ∨
        CompressStep.copyData = CompressStep.copyData ∨
        CompressStep.copyData = CompressStep.removeInput) →
      ((CompressZstd (fun c => c)
          { createFails := false, newWriterFails := false, copyFails := true,
            removeFails := false } sampleFS "a.dump").2 ("a.dump" ++ ".zst")).isSome
        = true) := by
  refine ⟨rfl, ?_⟩
  exact compressZstd_failure_effects (fun c => c)
    { createFails := false, newWriterFails := false, copyFails := true,
      removeFails := false } sampleFS "a.dump" CompressStep.copyData rfl

/-- Claim C6: for any lossless codec (the klauspost zstd encoder/decoder pair
is external and satisfies decode of encode equals identity), compressing a
file with CompressZstd and then decompressing the produced .zst artifact with
DecompressZstd succeeds and recreates the original byte content at the
original path. -/
theorem compress_decompress_roundtrip
    (enc dec : Content → Content) (hc : ∀ y, dec (enc y) = y)
    (fs : FS) (p : String) (x : Content) (hp : fs p = some x) :
    (CompressZstd enc noCompressFaults fs p).1 = Except.ok (p ++ ".zst") ∧
    (DecompressZstd dec noDecompressFaults (CompressZstd enc noCompressFaults fs p).2
        (p ++ ".zst")).1 = Except.ok p ∧
    (DecompressZstd dec noDecompressFaults (CompressZstd enc noCompressFaults fs p).2
        (p ++ ".zst")).2 p = some x := by
  have hne := append_zst_ne p
  have hne' := ne_append_zst p
  have hts := trimSuffix_append_zst p
  refine ⟨?_, ?_, ?_⟩ <;>
    simp [CompressZstd, DecompressZstd, hp, noCompressFaults, noDecompressFaults,
      FS.update, FS.erase, hts, hne, hne', hc]

/-- Claim C6, witness: the round trip at a concrete one-file filesystem with
the identity codec. -/
theorem compress_decompress_roundtrip_witness :
    (CompressZstd (fun c => c) noCompressFaults sampleFS "a.dump").1 =
      Except.ok "a.dump.zst" ∧
    (DecompressZstd (fun c => c) noDecompressFaults
        (CompressZstd (fun c => c) noCompressFaults sampleFS "a.dump").2
        "a.dump.zst").1 = Except.ok "a.dump" ∧
    (DecompressZstd (fun c => c) noDecompressFaults
        (CompressZstd (fun c => c) noCompressFaults sampleFS "a.dump").2
        "a.dump.zst").2 "a.dump" = some [7, 7] :=
  compress_decompress_roundtrip (fun c => c) (fun c => c) (fun _ => rfl)
    sampleFS "a.dump" [7, 7] rfl

/-- Claim C7, counterexample: with two configured Postgres instances whose
second lease fails, initialization returns only the wrapped error - the
successfully leased first instance is discarded and no Database list is
returned - refuting the claim that a lease failure aborts only that
instance's construction while the others still proceed. -/
theorem lease_failure_discards_other_instances :
    InitializeDatabases
      [({ roleName := "db1", database := "db1", host := "h", port := "5432",
          method := "plain" },
        Except.ok { username := "u1", password := "p1", ttlSeconds := 3600 }),
       ({ roleName := "db2", database := "db2", host := "h", port := "5432",
          method := "plain" },
        Except.error "permission denied")] [] =
      Except.error "initialize postgres instance: vault read :permission denied" :=
  rfl

/-- Claim C7, amended: a failure to lease the dynamic credential of any one
instance makes that engine's initializer return an error with no Databases at
all (instances already constructed in the same loop are discarded), and
InitializeDatabases then aborts the run with an error as well. -/
theorem lease_failure_aborts_engine_and_run
    (pre : List (InstanceSpec × Except String DynamicCredentials))
    (inst : InstanceSpec) (e : String)
    (post : List (InstanceSpec × Except String DynamicCredentials))
    (mongoLeases : List (InstanceSpec × Except String DynamicCredentials)) :
    (∃ msg, InitEngineInstances (pre ++ (inst, Except.error e) :: post) =
      Except.error msg) ∧
    (∃ msg, InitializeDatabases (pre ++ (inst, Except.error e) :: post) mongoLeases =
      Except.error msg) := by
  have h : ∃ msg, InitEngineInstances (pre ++ (inst, Except.error e) :: post) =
      Except.error msg := by
    induction pre with
    | nil => exact ⟨"vault read :" ++ e, rfl⟩
    | cons hd tl ih =>
        rcases hd with ⟨i, c⟩
        rcases c with e2 | c2
        · exact ⟨"vault read :" ++ e2, rfl⟩
        · rcases ih with ⟨m, hm⟩
          exact ⟨m, by simp [InitEngineInstances, hm]⟩
  rcases h with ⟨m, hm⟩
  exact ⟨⟨m, hm⟩,
    ⟨"initialize postgres instance: " ++ m, by simp [InitializeDatabases, hm]⟩⟩

/-- Claim C8, counterexample: with a method that matches no restore strategy,
Postgres.Restore still invokes pg_restore (passing the unmatched method to
-F) and MongoDB.Restore invokes mongorestore with an empty argument list;
neither fails with ErrUnsupportedRestoreMethod, refuting the claim. -/
theorem unmatched_method_still_invokes_tool :
    Postgres.restoreOutcome pgBogus allFS "bk" =
      RestoreOutcome.invoke "pg_restore"
        ["-h", "h", "-p", "5432", "-U", "u", "-d", "db1", "-c", "-F", "bogus", "bk"] ∧
    MongoDB.restoreOutcome mgBogus allFS "bk" =
      RestoreOutcome.invoke "mongorestore" [] ∧
    ¬ (Postgres.restoreOutcome pgBogus allFS "bk" = RestoreOutcome.unsupportedMethod) ∧
    ¬ (MongoDB.restoreOutcome mgBogus allFS "bk" = RestoreOutcome.unsupportedMethod) := by
  refine ⟨rfl, rfl, ?_, ?_⟩ <;> intro h <;> simp [Postgres.restoreOutcome,
    MongoDB.restoreOutcome, Postgres.restoreInvocation, MongoDB.restoreArgs,
    allFS, pgBogus, mgBogus, MethodDir, MethodDirGzip, MethodArchive,
    MethodArchiveGzip] at h

/-- Claim C8, amended: no adapter Restore ever produces the (declared but
unused) ErrUnsupportedRestoreMethod sentinel: whenever the artifact exists,
Postgres routes every method other than plain to a pg_restore invocation
carrying -F method, and MongoDB with a method matching none of its four
cases invokes mongorestore with an empty argument list. -/
theorem restore_never_unsupported_method
    (p : Postgres) (m : MongoDB) (fs : FS) (f : String) :
    ¬ (Postgres.restoreOutcome p fs f = RestoreOutcome.unsupportedMethod) ∧
    ¬ (MongoDB.restoreOutcome m fs f = RestoreOutcome.unsupportedMethod) ∧
    (¬ (p.method = "plain") → (fs f).isSome = true →
      Postgres.restoreOutcome p fs f =
        RestoreOutcome.invoke "pg_restore"
          ["-h", p.host, "-p", p.port, "-U", p.username, "-d", p.database,
           "-c", "-F", p.method, f]) ∧
    (¬ (m.method = MethodDir) → ¬ (m.method = MethodDirGzip) →
      ¬ (m.method = MethodArchive) → ¬ (m.method = MethodArchiveGzip) →
      (fs f).isSome = true →
      MongoDB.restoreOutcome m fs f = RestoreOutcome.invoke "mongorestore" []) := by
  refine ⟨?_, ?_, ?_, ?_⟩
  · cases h : fs f <;> simp [Postgres.restoreOutcome, h]
  · cases h : fs f <;> simp [MongoDB.restoreOutcome, h]
  · intro hm hf
    cases h : fs f
    · rw [h] at hf
      simp at hf
    · simp [Postgres.restoreOutcome, Postgres.restoreInvocation, h, hm]
  · intro h1 h2 h3 h4 hf
    cases h : fs f
    · rw [h] at hf
      simp at hf
    · simp [MongoDB.restoreOutcome, MongoDB.restoreArgs, h, h1, h2, h3, h4]

/-- Claim C8, witness for the amended theorem at concrete instances with an
unmatched method. -/
theorem restore_never_unsupported_method_witness :
    Postgres.restoreOutcome pgBogus allFS "bk" =
      RestoreOutcome.invoke "pg_restore"
        ["-h", pgBogus.host, "-p", pgBogus.port, "-U", pgBogus.username,
         "-d", pgBogus.database, "-c", "-F", pgBogus.method, "bk"] ∧
    MongoDB.restoreOutcome mgBogus allFS "bk" =
      RestoreOutcome.invoke "mongorestore" [] :=
  ⟨(restore_never_unsupported_method pgBogus mgBogus allFS "bk").2.2.1
      (by decide) rfl,
   (restore_never_unsupported_method pgBogus mgBogus allFS "bk").2.2.2
      (by decide) (by decide) (by decide) (by decide) rfl⟩

/-- Helper: any of the three AppRole login steps failing (transport error,
missing field, failed type assertion, empty value, or missing token) makes
loginAppRole return an error. -/
theorem loginAppRole_fails (b : ApproleBroker)
    (h : fieldFails b.roleIdRead ∨ fieldFails b.secretIdWrite ∨
         loginStepFails b.loginWrite) :
    ∃ e, loginAppRole b = Except.error e := by
  rcases b with ⟨r, s, l⟩
  rcases r with er | fr
  · exact ⟨"fetch role_id: " ++ er, rfl⟩
  · rcases fr with _ | _ | v
    · exact ⟨"no role_id returned", rfl⟩
    · exact ⟨"invalid role_id format", rfl⟩
    · by_cases hv : v = ""
      · exact ⟨"invalid role_id format", by simp [loginAppRole, hv]⟩
      · rcases s with es | fs2
        · exact ⟨"generate secret_id: " ++ es, by simp [loginAppRole, hv]⟩
        · rcases fs2 with _ | _ | w
          · exact ⟨"no secret_id returned", by simp [loginAppRole, hv]⟩
          · exact ⟨"invalid secret_id format", by simp [loginAppRole, hv]⟩
          · by_cases hw : w = ""
            · exact ⟨"invalid secret_id format", by simp [loginAppRole, hv, hw]⟩
            · rcases l with el | tl
              · exact ⟨"approle login request: " ++ el, by simp [loginAppRole, hv, hw]⟩
              · rcases tl with _ | t
                · exact ⟨"no token in login response", by simp [loginAppRole, hv, hw]⟩
                · by_cases ht : t = ""
                  · exact ⟨"no token in login response",
                      by simp [loginAppRole, hv, hw, ht]⟩
                  · exfalso
                    rcases h with h | h | h <;>
                      simp [fieldFails, loginStepFails] at h <;> contradiction

/-- Claim C9: when AppRole authentication is configured, failure of any of
the three login steps makes NewClient return an error, and no client value
(no partial session) is ever handed to the caller. -/
theorem newClient_no_partial_session (cfgToken approleName : String)
    (b : ApproleBroker) (hname : ¬ (approleName = ""))
    (hfail : fieldFails b.roleIdRead ∨ fieldFails b.secretIdWrite ∨
             loginStepFails b.loginWrite) :
    (∃ e, NewClient cfgToken approleName b = Except.error e) ∧
    ∀ c, ¬ (NewClient cfgToken approleName b = Except.ok c) := by
  rcases loginAppRole_fails b hfail with ⟨e, he⟩
  constructor
  · exact ⟨"AppRole login failed: " ++ e, by simp [NewClient, hname, he]⟩
  · intro c hc
    simp [NewClient, hname, he] at hc

/-- Claim C9, witness: a concrete broker whose role-id read fails. -/
theorem newClient_no_partial_session_witness :
    (∃ e, NewClient "" "bacli-role" brokerDown = Except.error e) ∧
    ∀ c, ¬ (NewClient "" "bacli-role" brokerDown = Except.ok c) :=
  newClient_no_partial_session "" "bacli-role" brokerDown (by decide)
    (Or.inl trivial)

/-- Claim C10: for any input path that does not end in ".zst", strings.
TrimSuffix leaves it unchanged, so DecompressZstd computes an output path
equal to the input path and its os.Create step truncates the very file being
read: the run reports success at the input path, whose content afterwards is
the decode of the truncated (empty) stream rather than the original
content - the suffix is never validated before opening for write. -/
theorem decompress_non_zst_truncates_input
    (dec : Content → Content) (fs : FS) (p : String) (c : Content)
    (hs : ¬ ((".zst" : String).data <:+ p.data)) (hp : fs p = some c) :
    trimSuffix p ".zst" = p ∧
    (DecompressZstd dec noDecompressFaults fs p).1 = Except.ok p ∧
    (DecompressZstd dec noDecompressFaults fs p).2 p = some (dec []) := by
  have ht := trimSuffix_eq_self p hs
  refine ⟨ht, ?_, ?_⟩ <;>
    simp [DecompressZstd, noDecompressFaults, ht, hp, FS.update]

/-- Claim C10, witness: decompressing the plain file a.dump in place destroys
its content. -/
theorem decompress_non_zst_truncates_input_witness :
    trimSuffix "a.dump" ".zst" = "a.dump" ∧
    (DecompressZstd (fun c => c) noDecompressFaults sampleFS "a.dump").1 =
      Except.ok "a.dump" ∧
    (DecompressZstd (fun c => c) noDecompressFaults sampleFS "a.dump").2 "a.dump" =
      some [] :=
  decompress_non_zst_truncates_input (fun c => c) sampleFS "a.dump" [7, 7]
    (by decide) rfl

end Bacli
